import Mathlib

/-!
Verification development for the wa-chat-mcp session-orchestration layer.

The TypeScript source is shallowly embedded: the in-memory `Map` stores become
association lists (preserving insertion order, as JS `Map` iteration does),
`Date.now()` style timestamps become `Nat` parameters, and the opaque external
collaborators (the Baileys socket factory, the filesystem, the SSE response
stream) are modelled by explicit environment records that record the outcome of
each fallible external call.  Every definition mirrors one function of the
source; mutation of a captured closure object is modelled by updating the map
entry exactly when the map still holds that object (identified by its socket
id).
-/

namespace WaChatMcp

/-- Bool test that the first character list starts the second. -/
def charsStartWith : List Char → List Char → Bool
  | [], _ => true
  | _ :: _, [] => false
  | a :: as, b :: bs => a == b && charsStartWith as bs

/-- Bool test that the first character list occurs inside the second. -/
def charsContain (needle : List Char) : List Char → Bool
  | [] => charsStartWith needle []
  | b :: bs => charsStartWith needle (b :: bs) || charsContain needle bs

/-- Bool substring test, modelling the JS `String.prototype.includes`. -/
def strContains (hay needle : String) : Bool :=
  charsContain needle.toList hay.toList

/-- Join a list of strings with a separator, modelling `Array.prototype.join`. -/
def joinSep (sep : String) : List String → String
  | [] => ""
  | [x] => x
  | x :: xs => x ++ sep ++ joinSep sep xs

/-- Falsiness of an optional JS string: absent or the empty string. -/
def strFalsy : Option String → Bool
  | none => true
  | some s => s.isEmpty

/-! ## ClientSessionRegistry (src/mcp/mcp-session-manager.ts)

An SSE `ServerResponse` connection handle.  `closed`/`destroyed` mirror the
Node stream flags; `writeFails` records whether a `write` call on this handle
throws (the outcome of the external transport); `written` accumulates the wire
frames actually written. -/

structure McpConnection where
  closed : Bool
  destroyed : Bool
  writeFails : Bool
  written : List String
  deriving Repr, DecidableEq

/-- One client-facing push session: `{ id, connection, lastSeen }`. -/
structure McpSession where
  id : String
  connection : McpConnection
  lastSeen : Nat
  deriving Repr, DecidableEq

/-- The in-memory session store `sessions : Map<string, McpSession>`,
as an insertion-ordered association list. -/
def McpRegistry := List (String × McpSession)

/-- Look up an entry of an association list by key. -/
def assocFind? {β : Type} (k : String) (m : List (String × β)) : Option β :=
  (m.find? (fun p => p.fst == k)).map Prod.snd

/-- Replace the value at a key, keeping list order (JS `Map.set` on an
existing key). -/
def assocUpdate {β : Type} (k : String) (f : β → β) (m : List (String × β)) :
    List (String × β) :=
  m.map (fun p => if p.fst == k then (p.fst, f p.snd) else p)

/-- Delete a key (JS `Map.delete`). -/
def assocErase {β : Type} (k : String) (m : List (String × β)) :
    List (String × β) :=
  m.filter (fun p => p.fst != k)

/-- McpSessionManager.getSession: returns the entry and refreshes `lastSeen`
as a side effect of lookup. -/
def getSession (now : Nat) (sessionId : String) (reg : McpRegistry) :
    Option McpSession × McpRegistry :=
  match assocFind? sessionId reg with
  | none => (none, reg)
  | some s =>
      let s' := { s with lastSeen := now }
      (some s', assocUpdate sessionId (fun _ => s') reg)

/-- McpEventEmitter.sendEventToClient (src/mcp/mcp-event-emitter.ts).

`dataJson` is the `JSON.stringify(data)` result for the payload (the
serializers for the concrete payloads of this development are defined below
and applied at each call site, exactly where the source stringifies).
Returns the delivered flag and the updated registry.  The SSE wire envelope is
`event: <type>\n` (when the type string is non-empty, i.e. truthy) followed by
`data: <json>\n\n`. -/
def sendEventToClient (now : Nat) (sessionId eventType dataJson : String)
    (reg : McpRegistry) : Bool × McpRegistry :=
  match getSession now sessionId reg with
  | (none, reg') => (false, reg')
  | (some s, reg') =>
      if s.connection.closed || s.connection.destroyed then
        (false, reg')
      else
        let eventString :=
          (if eventType.isEmpty then "" else "event: " ++ eventType ++ "\n")
            ++ "data: " ++ dataJson ++ "\n\n"
        if s.connection.writeFails then
          (false, reg')
        else
          (true,
            assocUpdate sessionId
              (fun t =>
                { t with connection :=
                    { t.connection with written := t.connection.written ++ [eventString] } })
              reg')

/-! ## ProtocolSessionManager (src/core/baileys-session-manager.ts, the
implementation with retry bookkeeping)

A `BaileysSession` map entry.  `socketId` identifies the socket object
produced by one `makeWASocket` call (the factory is opaque; handles are
compared by identity).  `wsOpen` is the collaborator state behind
`socket.ws.readyState === ws.OPEN` used by the QR-replay guard: false while
pairing, true once the connection has opened. -/

structure BaileysSession where
  mcpSessionId : String
  socketId : Nat
  stateDir : String
  creationTime : Nat
  lastActivityTime : Nat
  qrCode : Option String
  retryCount : Nat
  wsOpen : Bool
  deriving Repr, DecidableEq

/-- Callback events delivered to the eventCallbacks record supplied to
getOrCreateBaileysSession. -/
inductive CbEvent where
  | onQR (mcpSessionId qr : String)
  | onConnected (mcpSessionId : String)
  | onDisconnected (mcpSessionId : String)
  | onMessage (mcpSessionId msgId : String)
  deriving Repr, DecidableEq

/-- State owned by the session manager module, together with the observable
trace needed by the claims: the map `baileysSessions`, the next fresh socket
identity, how many times the `makeWASocket` factory ran, the cumulative number
of `setTimeout` re-creation schedulings, the re-creation timers armed but not
yet fired (in order), the set of credential directories present on disk, and
the emitted callback events. -/
structure MgrState where
  sessions : List (String × BaileysSession)
  nextSocketId : Nat
  factoryCalls : Nat
  scheduledRecreations : Nat
  pendingTimers : List String
  authDirs : List String
  emitted : List CbEvent
  deriving Repr, DecidableEq

/-- The empty manager state at module load. -/
def MgrState.init : MgrState :=
  { sessions := [], nextSocketId := 0, factoryCalls := 0,
    scheduledRecreations := 0, pendingTimers := [], authDirs := [],
    emitted := [] }

/-- AUTH_STATE_BASE_DIR (process.cwd() abbreviated away). -/
def AUTH_STATE_BASE_DIR : String := ".baileys_auth_state"

/-- Credential directory for a tenant:
`path.join(AUTH_STATE_BASE_DIR, "session_" + mcpSessionId)`. -/
def stateDirFor (mcpSessionId : String) : String :=
  AUTH_STATE_BASE_DIR ++ "/session_" ++ mcpSessionId

/-- getOrCreateBaileysSession.  Returns the socket id of the returned handle
and the next state.  Existing-entry branch: refresh `lastActivityTime`, replay
the pending QR code when one is stored and the socket websocket is not OPEN,
and return the existing socket without touching the factory.  Fresh branch:
derive the credential directory, load or create credential state on disk
(useMultiFileAuthState creates the directory), run the factory once, and store
a new entry with `retryCount := 0` and no pending QR. -/
def getOrCreateBaileysSession (now : Nat) (mcpSessionId : String)
    (st : MgrState) : Nat × MgrState :=
  match assocFind? mcpSessionId st.sessions with
  | some existingSession =>
      let st :=
        { st with sessions :=
            (assocUpdate mcpSessionId (fun s => { s with lastActivityTime := now })
              st.sessions) }
      let st :=
        if existingSession.qrCode.isSome && !existingSession.wsOpen then
          { st with emitted :=
              (st.emitted ++ [.onQR mcpSessionId (existingSession.qrCode.getD "")]) }
        else st
      (existingSession.socketId, st)
  | none =>
      let stateDir := stateDirFor mcpSessionId
      let sock := st.nextSocketId
      let newBaileysSession : BaileysSession :=
        { mcpSessionId := mcpSessionId, socketId := sock, stateDir := stateDir,
          creationTime := now, lastActivityTime := now, qrCode := none,
          retryCount := 0, wsOpen := false }
      let st :=
        { st with
            authDirs :=
              if st.authDirs.contains stateDir then st.authDirs
              else st.authDirs ++ [stateDir],
            factoryCalls := st.factoryCalls + 1,
            nextSocketId := st.nextSocketId + 1,
            sessions := st.sessions ++ [(mcpSessionId, newBaileysSession)] }
      (sock, st)

/-- Outcomes of the fallible external calls made while removing a session:
whether `socket.logout()` rejects for a given socket (the fallback
`socket.end(undefined)` is the forced-termination call of the collaborator
contract and completes), and whether the recursive `fs.rm` of a given
directory rejects (with `force: true` an absent directory is not an error). -/
structure RemoveEnv where
  logoutFails : Nat → Bool
  rmFails : String → Bool

/-- removeBaileysSession.  No-op when the tenant has no entry.  Otherwise the
logout attempt is wrapped in try/catch with the `end` fallback, the
credential-directory removal (only when `deleteAuthState`) is wrapped in its
own try/catch where failures other than absence are logged and kept, and the
map deletion is unconditional. -/
def removeBaileysSession (env : RemoveEnv) (mcpSessionId : String)
    (deleteAuthState : Bool) (st : MgrState) : MgrState :=
  match assocFind? mcpSessionId st.sessions with
  | none => st
  | some session =>
      let _ := env.logoutFails session.socketId
      let st :=
        if deleteAuthState then
          if env.rmFails session.stateDir then st
          else { st with authDirs := st.authDirs.filter (· != session.stateDir) }
        else st
      { st with sessions := assocErase mcpSessionId st.sessions }

/-- DisconnectReason.loggedOut of the protocol library (statusCode 401). -/
def disconnectReasonLoggedOut : Nat := 401

/-- The error carried by `lastDisconnect` on a close, as inspected by the
handler: the Boom statusCode and the error message text. -/
structure BoomErr where
  statusCode : Option Nat
  message : String
  deriving Repr, DecidableEq

/-- A `connection.update` event payload: `{ connection, lastDisconnect, qr }`.
`connection` is the raw string (`"close"`, `"open"`, `"connecting"`, or
absent); `lastDisconnect` holds the error object when present. -/
structure ConnUpdate where
  connection : Option String
  lastDisconnect : Option BoomErr
  qr : Option String
  deriving Repr, DecidableEq

/-- Terminal-logout classification:
`boomError?.output?.statusCode === DisconnectReason.loggedOut`. -/
def isLoggedOutUpdate (u : ConnUpdate) : Bool :=
  match u.lastDisconnect with
  | none => false
  | some b => b.statusCode == some disconnectReasonLoggedOut

/-- Restart-required classification:
`boomError?.message.includes("Stream Errored (restart required)") ||
boomError?.output?.statusCode === 515`. -/
def isRestartRequiredUpdate (u : ConnUpdate) : Bool :=
  match u.lastDisconnect with
  | none => false
  | some b =>
      strContains b.message "Stream Errored (restart required)"
        || b.statusCode == some 515

/-- MAX_RETRIES of the restart-required branch. -/
def MAX_RETRIES : Nat := 3

/-- Update the map entry for a tenant only when the map still holds the
session object captured by the handler closure (same socket identity);
models a field assignment on `newBaileysSession`. -/
def updateCaptured (mcpSessionId : String) (selfId : Nat)
    (f : BaileysSession → BaileysSession)
    (m : List (String × BaileysSession)) : List (String × BaileysSession) :=
  assocUpdate mcpSessionId (fun s => if s.socketId == selfId then f s else s) m

/-- The `connection.update` handler registered by getOrCreateBaileysSession.
`selfId` is the socket whose handler fires (the closure captures the session
object created alongside it).  Steps, in source order: refresh
`lastActivityTime` on the captured object; on a `qr` value, store it on the
captured object and invoke onQR; on close, classify and either remove the
session with its credentials (logout), bump `retryCount` and arm a delayed
re-creation timer while under MAX_RETRIES (restart required), or do nothing
further (other close); on open, reset `retryCount` on the current map entry,
clear the pending QR code, and invoke onConnected. -/
def handleConnectionUpdate (env : RemoveEnv) (selfId : Nat) (now : Nat)
    (mcpSessionId : String) (update : ConnUpdate) (st : MgrState) : MgrState :=
  let st :=
    { st with sessions :=
        (updateCaptured mcpSessionId selfId (fun s => { s with lastActivityTime := now })
          st.sessions) }
  let st :=
    match update.qr with
    | some q =>
        { st with
            sessions :=
              (updateCaptured mcpSessionId selfId (fun s => { s with qrCode := some q })
                st.sessions),
            emitted := st.emitted ++ [.onQR mcpSessionId q] }
    | none => st
  if update.connection == some "close" then
    let st := { st with emitted := st.emitted ++ [.onDisconnected mcpSessionId] }
    if isLoggedOutUpdate update then
      removeBaileysSession env mcpSessionId true st
    else if isRestartRequiredUpdate update then
      match assocFind? mcpSessionId st.sessions with
      | some currentSession =>
          if currentSession.retryCount < MAX_RETRIES then
            { st with
                sessions :=
                  (assocUpdate mcpSessionId
                    (fun s => { s with retryCount := s.retryCount + 1 }) st.sessions),
                scheduledRecreations := st.scheduledRecreations + 1,
                pendingTimers := st.pendingTimers ++ [mcpSessionId] }
          else st
      | none => st
    else st
  else if update.connection == some "open" then
    let st :=
      { st with sessions :=
          (assocUpdate mcpSessionId (fun s => { s with retryCount := 0 }) st.sessions) }
    let st :=
      { st with sessions :=
          (updateCaptured mcpSessionId selfId
            (fun s => { s with qrCode := none, wsOpen := true }) st.sessions) }
    let st :=
      { st with sessions :=
          (assocUpdate mcpSessionId (fun s => { s with qrCode := none }) st.sessions) }
    { st with emitted := st.emitted ++ [.onConnected mcpSessionId] }
  else st

/-- The body of the armed re-creation timer: delete the current map entry,
then call getOrCreateBaileysSession again for the same tenant.  When that
fresh creation rejects, the catch only logs, so the tenant stays deleted.
`creationSucceeds` records the outcome of the awaited re-creation. -/
def fireRecreationTimer (now : Nat) (mcpSessionId : String)
    (creationSucceeds : Bool) (st : MgrState) : MgrState :=
  let st :=
    { st with
        sessions := assocErase mcpSessionId st.sessions,
        pendingTimers := st.pendingTimers.erase mcpSessionId }
  if creationSucceeds then (getOrCreateBaileysSession now mcpSessionId st).2
  else st

/-- One message of a `messages.upsert` batch: the key identity flags and
whether `msg.message` (the content) is non-null. -/
structure UpsertMsg where
  msgId : String
  fromMe : Bool
  hasMessage : Bool
  deriving Repr, DecidableEq

/-- The body of the `forEach` loop of the `messages.upsert` handler: invoke
onMessage when the message has content and is not from the own account. -/
def upsertStep (mcpSessionId : String) (acc : MgrState) (msg : UpsertMsg) : MgrState :=
  if msg.hasMessage && !msg.fromMe then
    { acc with emitted := acc.emitted ++ [.onMessage mcpSessionId msg.msgId] }
  else acc

/-- The `messages.upsert` handler: when the batch is non-empty, run the
`forEach` body over every message of the batch. -/
def handleMessagesUpsert (mcpSessionId : String) (msgs : List UpsertMsg)
    (st : MgrState) : MgrState :=
  if msgs.length > 0 then msgs.foldl (upsertStep mcpSessionId) st else st

/-- The body of the sweep loop: when the visited entry is still present and
idle longer than the threshold, remove it without deleting credentials. -/
def cleanupStep (env : RemoveEnv) (now maxIdleTimeMs : Nat) (acc : MgrState)
    (mcpSessionId : String) : MgrState :=
  match assocFind? mcpSessionId acc.sessions with
  | some session =>
      if now - session.lastActivityTime > maxIdleTimeMs then
        removeBaileysSession env mcpSessionId false acc
      else acc
  | none => acc

/-- cleanupInactiveBaileysSessions: sweep the live map, removing (without
deleting credentials) every entry idle longer than `maxIdleTimeMs`.  The JS
`for...of` iterates the entries present when the sweep starts; each removal
only deletes the entry being visited, so folding over the initial key list and
re-reading the current map is the same iteration. -/
def cleanupInactiveBaileysSessions (env : RemoveEnv) (now maxIdleTimeMs : Nat)
    (st : MgrState) : MgrState :=
  (st.sessions.map Prod.fst).foldl (cleanupStep env now maxIdleTimeMs) st

/-! ## Raw inbound message shape (the fields inspected by the adapter and
the media handler) -/

/-- A media-bearing sub-message (imageMessage, videoMessage, audioMessage,
documentMessage or stickerMessage): whether `mediaKey` and `url` are present,
plus the metadata read from it. -/
structure MediaSub where
  mediaKeyPresent : Bool
  urlPresent : Bool
  caption : Option String
  fileName : Option String
  mimetype : Option String
  deriving Repr, DecidableEq

/-- The `extendedTextMessage` sub-message (only `.text` is read). -/
structure ExtTextSub where
  text : Option String
  deriving Repr, DecidableEq

/-- The `reactionMessage` sub-message. -/
structure ReactionSub where
  text : Option String
  targetMessageId : Option String
  deriving Repr, DecidableEq

/-- The `locationMessage` sub-message. -/
structure LocationSub where
  degreesLatitude : Int
  degreesLongitude : Int
  name : Option String
  address : Option String
  deriving Repr, DecidableEq

/-- A contact card (from `contactMessage` or `contactsArrayMessage`). -/
structure ContactSub where
  displayName : Option String
  vcard : Option String
  deriving Repr, DecidableEq

/-- The populated sub-fields of `message.message`.  `otherKeys` lists the
keys of any further populated sub-fields the adapter does not inspect. -/
structure RawMsgContent where
  conversation : Option String
  extendedTextMessage : Option ExtTextSub
  imageMessage : Option MediaSub
  videoMessage : Option MediaSub
  audioMessage : Option MediaSub
  documentMessage : Option MediaSub
  stickerMessage : Option MediaSub
  reactionMessage : Option ReactionSub
  locationMessage : Option LocationSub
  contactMessage : Option ContactSub
  contactsArrayMessage : Option (List ContactSub)
  otherKeys : List String
  deriving Repr, DecidableEq

/-- `Object.keys(message.message)`: the names of the populated sub-fields. -/
def RawMsgContent.keys (c : RawMsgContent) : List String :=
  (if c.conversation.isSome then ["conversation"] else [])
    ++ (if c.extendedTextMessage.isSome then ["extendedTextMessage"] else [])
    ++ (if c.imageMessage.isSome then ["imageMessage"] else [])
    ++ (if c.videoMessage.isSome then ["videoMessage"] else [])
    ++ (if c.audioMessage.isSome then ["audioMessage"] else [])
    ++ (if c.documentMessage.isSome then ["documentMessage"] else [])
    ++ (if c.stickerMessage.isSome then ["stickerMessage"] else [])
    ++ (if c.reactionMessage.isSome then ["reactionMessage"] else [])
    ++ (if c.locationMessage.isSome then ["locationMessage"] else [])
    ++ (if c.contactMessage.isSome then ["contactMessage"] else [])
    ++ (if c.contactsArrayMessage.isSome then ["contactsArrayMessage"] else [])
    ++ c.otherKeys

/-- The message key `{ id, remoteJid, participant, fromMe }`. -/
structure WAMessageKey where
  id : String
  remoteJid : String
  participant : Option String
  fromMe : Bool
  deriving Repr, DecidableEq

/-- A raw inbound protocol message as far as the adapter reads it. -/
structure WAMessage where
  key : WAMessageKey
  message : Option RawMsgContent
  messageTimestamp : Option Nat
  deriving Repr, DecidableEq

/-! ## MediaHandler (src/media/media-handler.ts) -/

/-- TEMP_MEDIA_DIR (`path.join(os.tmpdir(), "mcp_baileys_media")`). -/
def TEMP_MEDIA_DIR : String := "/tmp/mcp_baileys_media"

/-- The result record of downloadAndProcessMedia. -/
structure ProcessedMediaInfo where
  type : String
  mimeType : String
  data : Option Nat
  filePath : Option String
  fileName : Option String
  caption : Option String
  error : Option String
  deriving Repr, DecidableEq

/-- Outcomes of the external calls made by the media handler: the
`downloadMediaMessage` result (an abstract buffer id, or the rejection
message) and the fresh uuid used for generated file names. -/
structure MediaEnv where
  downloadResult : Except String Nat
  freshName : String

/-- JS `a || b` on strings. -/
def strOr (a b : String) : String := if a.isEmpty then b else a

/-- downloadAndProcessMedia: pick the first media sub-field, read its key,
url, caption and file name, then download; on a missing key or url, or a
failed download, return a record carrying an `error` instead of content.
With `storeTemporarily` the buffer is written to a file under
TEMP_MEDIA_DIR and `filePath` is set; otherwise `data` carries the buffer. -/
def downloadAndProcessMedia (env : MediaEnv) (message : WAMessage)
    (storeTemporarily : Bool) : Option ProcessedMediaInfo :=
  let content? := message.message
  let pick :
      Option (String × MediaSub × Option String × String) :=
    match content? with
    | none => none
    | some c =>
        match c.imageMessage with
        | some m => some ("image", m, m.caption, m.fileName.getD (env.freshName ++ ".jpg"))
        | none =>
        match c.videoMessage with
        | some m => some ("video", m, m.caption, m.fileName.getD (env.freshName ++ ".mp4"))
        | none =>
        match c.audioMessage with
        | some m => some ("audio", m, none, env.freshName ++ ".ogg")
        | none =>
        match c.documentMessage with
        | some m => some ("document", m, m.caption, m.fileName.getD (env.freshName ++ ".bin"))
        | none =>
        match c.stickerMessage with
        | some m => some ("sticker", m, none, env.freshName ++ ".webp")
        | none => none
  match pick with
  | none => none
  | some (messageType, sub, caption, originalFileName) =>
      if !(sub.mediaKeyPresent && sub.urlPresent) then
        some { type := strOr messageType "unknown", mimeType := "",
               data := none, filePath := none, fileName := none, caption := none,
               error := some "Media key or URL missing from Baileys message." }
      else
        let mimeType := sub.mimetype.getD ""
        match env.downloadResult with
        | .error errorMessage =>
            some { type := messageType, mimeType := mimeType,
                   data := none, filePath := none, fileName := some originalFileName,
                   caption := none,
                   error := some ("Failed to download/process media: " ++ errorMessage) }
        | .ok buffer =>
            if storeTemporarily then
              some { type := messageType, mimeType := mimeType,
                     data := none,
                     filePath := some (TEMP_MEDIA_DIR ++ "/" ++ originalFileName),
                     fileName := some originalFileName, caption := caption,
                     error := none }
            else
              some { type := messageType, mimeType := mimeType,
                     data := some buffer, filePath := none,
                     fileName := some originalFileName, caption := caption,
                     error := none }

/-! ## EventAdapter (handleNewBaileysMessage in src/index.ts) -/

/-- The `media` object attached to the client payload.  The
`serverFilePath` field models the `_serverFilePath` key. -/
structure PayloadMedia where
  type : Option String
  mimeType : Option String
  caption : Option String
  fileName : Option String
  serverFilePath : Option String
  error : Option String
  deriving Repr, DecidableEq

/-- The canonical client-facing message payload assembled by the adapter.
`fromJid` models the `from` key; `baileysMessageId` stands for the raw
`baileysMessage` echo (an opaque copy of the inbound message, identified here
by its key id). -/
structure McpMessagePayload where
  id : String
  fromJid : String
  participant : Option String
  timestamp : Nat
  type : String
  baileysMessageId : String
  text : Option String
  media : Option PayloadMedia
  reaction : Option ReactionSub
  location : Option LocationSub
  contact : Option ContactSub
  contacts : Option (List ContactSub)
  deriving Repr, DecidableEq

/-- Builds the client payload for one inbound message, mirroring the branch
ladder of handleNewBaileysMessage.  `nowSec` is `Math.floor(Date.now()/1000)`,
used when the message carries no (truthy) timestamp. -/
def buildMcpMessagePayload (env : MediaEnv) (nowSec : Nat)
    (message : WAMessage) : McpMessagePayload :=
  let base : McpMessagePayload :=
    { id := message.key.id, fromJid := message.key.remoteJid,
      participant := message.key.participant,
      timestamp :=
        match message.messageTimestamp with
        | some t => if t == 0 then nowSec else t
        | none => nowSec,
      type := "text", baileysMessageId := message.key.id,
      text := none, media := none, reaction := none, location := none,
      contact := none, contacts := none }
  if !(strFalsy (message.message.bind (·.conversation))) then
    { base with
        type := "text", text := message.message.bind (·.conversation) }
  else if (message.message.bind (·.extendedTextMessage)).isSome then
    { base with
        type := "text",
        text := (message.message.bind (·.extendedTextMessage)).bind (·.text) }
  else if (message.message.bind (·.imageMessage)).isSome
      || (message.message.bind (·.videoMessage)).isSome
      || (message.message.bind (·.audioMessage)).isSome
      || (message.message.bind (·.documentMessage)).isSome
      || (message.message.bind (·.stickerMessage)).isSome then
    match downloadAndProcessMedia env message true with
    | some mediaInfo =>
        let withMedia :=
          { base with
              media := some
                { type := some mediaInfo.type, mimeType := some mediaInfo.mimeType,
                  caption := mediaInfo.caption, fileName := mediaInfo.fileName,
                  serverFilePath := mediaInfo.filePath, error := mediaInfo.error },
              type := strOr mediaInfo.type "media" }
        if !(strFalsy mediaInfo.caption) && withMedia.text == none then
          { withMedia with text := mediaInfo.caption }
        else withMedia
    | none =>
        { base with
            type := "media",
            media := some
              { type := none, mimeType := none, caption := none, fileName := none,
                serverFilePath := none, error := some "Failed to process media." } }
  else if (message.message.bind (·.reactionMessage)).isSome then
    { base with
        type := "reaction",
        reaction := message.message.bind (·.reactionMessage) }
  else if (message.message.bind (·.locationMessage)).isSome then
    { base with
        type := "location",
        location := message.message.bind (·.locationMessage) }
  else if (message.message.bind (·.contactMessage)).isSome then
    { base with
        type := "contact",
        contact := message.message.bind (·.contactMessage) }
  else if (message.message.bind (·.contactsArrayMessage)).isSome then
    { base with
        type := "contacts_array",
        contacts := message.message.bind (·.contactsArrayMessage) }
  else
    let messageKeys :=
      match message.message with
      | none => "null"
      | some c => joinSep ", " c.keys
    { base with
        type := "unknown",
        text := some ("Received an unhandled message type. Content keys: " ++ messageKeys) }

/-! ### JSON serialization of the payload (the `JSON.stringify(data)` applied
by the event emitter before writing the SSE frame).  Undefined (absent)
fields are omitted, as JSON.stringify does. -/

/-- Quote a JSON string value. -/
def jsonStr (s : String) : String := "\"" ++ s ++ "\""

/-- Render one present field. -/
def jsonField (k v : String) : String := jsonStr k ++ ":" ++ v

/-- Render an optional string field (absent fields are omitted). -/
def optStrField (k : String) : Option String → List String
  | none => []
  | some v => [jsonField k (jsonStr v)]

/-- Wrap rendered fields into a JSON object. -/
def jsonObj (fields : List String) : String :=
  "\x7b" ++ joinSep "," fields ++ "\x7d"

/-- Serialize the `media` object; the storage reference is emitted under the
`_serverFilePath` key, exactly as the adapter names it. -/
def serializePayloadMedia (m : PayloadMedia) : String :=
  jsonObj
    (optStrField "type" m.type ++ optStrField "mimeType" m.mimeType
      ++ optStrField "caption" m.caption ++ optStrField "fileName" m.fileName
      ++ optStrField "_serverFilePath" m.serverFilePath
      ++ optStrField "error" m.error)

/-- Serialize a contact card. -/
def serializeContact (c : ContactSub) : String :=
  jsonObj (optStrField "displayName" c.displayName ++ optStrField "vcard" c.vcard)

/-- Serialize the client payload in its key insertion order.  The raw
`baileysMessage` echo is rendered as an object exposing its key id (its other
contents are the opaque protocol message and play no role in the claims). -/
def serializeMcpMessagePayload (p : McpMessagePayload) : String :=
  jsonObj
    ([jsonField "id" (jsonStr p.id), jsonField "from" (jsonStr p.fromJid)]
      ++ optStrField "participant" p.participant
      ++ [jsonField "timestamp" (toString p.timestamp),
          jsonField "type" (jsonStr p.type),
          jsonField "baileysMessage"
            (jsonObj [jsonField "keyId" (jsonStr p.baileysMessageId)])]
      ++ optStrField "text" p.text
      ++ (match p.media with
          | none => []
          | some m => [jsonField "media" (serializePayloadMedia m)])
      ++ (match p.reaction with
          | none => []
          | some r =>
              [jsonField "reaction"
                (jsonObj (optStrField "text" r.text
                  ++ optStrField "targetMessageId" r.targetMessageId))])
      ++ (match p.location with
          | none => []
          | some l =>
              [jsonField "location"
                (jsonObj [jsonField "degreesLatitude" (toString l.degreesLatitude),
                          jsonField "degreesLongitude" (toString l.degreesLongitude)])])
      ++ (match p.contact with
          | none => []
          | some c => [jsonField "contact" (serializeContact c)])
      ++ (match p.contacts with
          | none => []
          | some cs =>
              [jsonField "contacts"
                ("[" ++ joinSep "," (cs.map serializeContact) ++ "]")]))

/-- handleNewBaileysMessage: build the payload for the inbound message and
forward it to the client as a `baileys_new_message` event through the event
emitter.  Returns the assembled payload, the delivered flag, and the updated
client registry. -/
def handleNewBaileysMessage (env : MediaEnv) (now nowSec : Nat)
    (mcpSessionId : String) (message : WAMessage) (reg : McpRegistry) :
    McpMessagePayload × Bool × McpRegistry :=
  let mcpMessagePayload := buildMcpMessagePayload env nowSec message
  let (delivered, reg') :=
    sendEventToClient now mcpSessionId "baileys_new_message"
      (serializeMcpMessagePayload mcpMessagePayload) reg
  (mcpMessagePayload, delivered, reg')

/-! ## MCP action handling (src/mcp/mcp-message-handler.ts and the
BaileysCore.sendTextMessage it delegates to) -/

/-- One invocation of McpEventEmitter.sendEventToClient observed at the
emitter interface: which event type was requested and, for the terminal
response envelopes assembled by `sendResponse`, the echoed
`_originalActionType` and `_requestId` correlation fields (absent on the side
events the lower layers emit). -/
structure SentEvent where
  eventType : String
  originalActionType : Option String
  requestId : Option String
  messageText : String
  deriving Repr, DecidableEq

/-- Outcomes of the external calls of BaileysCore.sendTextMessage: whether
getBaileysSocket finds a socket, and the `socket.sendMessage` result (either a
rejection, or a resolution carrying the sent message key id when the resolved
value is defined). -/
structure TextSendEnv where
  socketPresent : Bool
  sendResult : Except String (Option String)
  deriving Repr

/-- BaileysCore.sendTextMessage: resolves the socket, validates the JID
shape, sends, and on each failure path emits a `baileys_error` event to the
client and resolves `undefined`; on success resolves the sent message. -/
def sendTextMessage (env : TextSendEnv) (mcpSessionId recipientJid text : String) :
    List SentEvent × Option String :=
  if !env.socketPresent then
    ([{ eventType := "baileys_error", originalActionType := none, requestId := none,
        messageText := "Cannot send message: Baileys session not active or not found." }],
      none)
  else if !(strContains recipientJid "@") then
    ([{ eventType := "baileys_error", originalActionType := none, requestId := none,
        messageText := "Invalid recipient JID format: " ++ recipientJid }], none)
  else
    match env.sendResult with
    | .error errorMessage =>
        ([{ eventType := "baileys_error", originalActionType := none, requestId := none,
            messageText :=
              "Failed to send text message to " ++ recipientJid ++ ": " ++ errorMessage }],
          none)
    | .ok sentMessage => ([], sentMessage)

/-- The `mediaSource` payload member: a JS string, or some other defined
JS value (over the JSON action transport, an object or number). -/
inductive MediaVal where
  | strVal (s : String)
  | otherVal
  deriving Repr, DecidableEq

/-- Falsiness of the optional `mediaSource` member. -/
def mediaFalsy : Option MediaVal → Bool
  | none => true
  | some (.strVal s) => s.isEmpty
  | some .otherVal => false

/-- An action object received from an MCP client.  `text` is present exactly
when `payload.text` is a string; `recipientJid` and `mediaSource` model the
corresponding payload members. -/
structure McpClientAction where
  actionType : String
  recipientJid : Option String
  text : Option String
  mediaSource : Option MediaVal
  requestId : Option String
  deriving Repr, DecidableEq

/-- Outcomes of the external calls of the SEND_IMAGE_MESSAGE branch: the
prepareMediaForSending result, whether getBaileysSocket finds a socket, and
the `socket.sendMessage` result for the prepared content. -/
structure ImageSendEnv where
  prepareResult : Except String Unit
  socketPresent : Bool
  sendResult : Except String (Option String)
  deriving Repr

/-- The environment of one handleMcpClientAction invocation. -/
structure ActionEnv where
  textEnv : TextSendEnv
  imageEnv : ImageSendEnv
  deriving Repr

/-- The mediaSource-to-buffer step of the SEND_IMAGE_MESSAGE branch: a
`data:` URI must split into exactly two parts around `;base64,`; any other
string is taken as a URL or path; a non-string source is rejected. -/
def mediaBufferSourceOf : Option MediaVal → Except String Unit
  | some (.strVal s) =>
      if s.startsWith "data:" then
        if (s.splitOn ";base64,").length == 2 then .ok ()
        else .error "Invalid base64 data URI for mediaSource."
      else .ok ()
  | _ =>
      .error
        "Unsupported mediaSource format. Must be URL, local path (server-side), or base64 data URI string."

/-- The body of the `try` block of handleMcpClientAction: the emitted side
events together with either success or the thrown error message. -/
def mcpActionAttempt (env : ActionEnv) (mcpSessionId : String)
    (action : McpClientAction) : List SentEvent × Except String Unit :=
  if action.actionType == "SEND_TEXT_MESSAGE" then
    if strFalsy action.recipientJid || action.text == none then
      ([], .error "Invalid payload for SEND_TEXT_MESSAGE. Requires recipientJid and text.")
    else
      let (side, sentMsg) :=
        sendTextMessage env.textEnv mcpSessionId (action.recipientJid.getD "")
          (action.text.getD "")
      match sentMsg with
      | some _ => (side, .ok ())
      | none => (side, .error "BaileysCore.sendTextMessage returned undefined. Sending failed.")
  else if action.actionType == "SEND_IMAGE_MESSAGE" then
    if strFalsy action.recipientJid || mediaFalsy action.mediaSource then
      ([], .error "Invalid payload for SEND_IMAGE_MESSAGE. Requires recipientJid and mediaSource.")
    else
      match mediaBufferSourceOf action.mediaSource with
      | .error e => ([], .error e)
      | .ok _ =>
          match env.imageEnv.prepareResult with
          | .error e => ([], .error e)
          | .ok _ =>
              if !env.imageEnv.socketPresent then
                ([], .error "Baileys session not found or not active.")
              else
                match env.imageEnv.sendResult with
                | .error e => ([], .error e)
                | .ok (some _) => ([], .ok ())
                | .ok none =>
                    ([], .error "socket.sendMessage for image returned undefined. Sending failed.")
  else ([], .error ("Unknown or unsupported actionType: " ++ action.actionType))

/-- The response envelope `sendResponse` assembles: the payload spread plus
`_originalActionType` and `_requestId`. -/
def sendResponse (action : McpClientAction) (eventType messageText : String) :
    SentEvent :=
  { eventType := eventType, originalActionType := some action.actionType,
    requestId := action.requestId, messageText := messageText }

/-- handleMcpClientAction: run the action body; on normal completion send one
`mcp_action_success` envelope, and on any thrown error send one
`mcp_action_error` envelope carrying the error message.  The result is the
ordered list of events handed to the event emitter. -/
def handleMcpClientAction (env : ActionEnv) (mcpSessionId : String)
    (action : McpClientAction) : List SentEvent :=
  match mcpActionAttempt env mcpSessionId action with
  | (side, .ok _) =>
      side ++ [sendResponse action "mcp_action_success" "Action completed successfully."]
  | (side, .error errorMessage) =>
      side
        ++ [sendResponse action "mcp_action_error"
              ("Error processing action " ++ action.actionType ++ ": " ++ errorMessage)]

/-- A terminal response envelope (success or error), as opposed to the
lower-layer side events. -/
def SentEvent.isTerminal (e : SentEvent) : Bool :=
  e.eventType == "mcp_action_success" || e.eventType == "mcp_action_error"

/-! ## Concrete fixtures used by the claim theorems -/

/-- A `connection.update` carrying only a fresh QR value. -/
def qrUpd (q : String) : ConnUpdate :=
  { connection := none, lastDisconnect := none, qr := some q }

/-- The `connection.update` event for a successful open. -/
def openUpd : ConnUpdate :=
  { connection := some "open", lastDisconnect := none, qr := none }

/-- A restart-required close: the stream error carrying statusCode 515. -/
def restartCloseUpdate : ConnUpdate :=
  { connection := some "close",
    lastDisconnect := some
      { statusCode := some 515, message := "Stream Errored (restart required)" },
    qr := none }

/-- A terminal-logout close: statusCode equal to DisconnectReason.loggedOut. -/
def loggedOutCloseUpdate : ConnUpdate :=
  { connection := some "close",
    lastDisconnect := some
      { statusCode := some disconnectReasonLoggedOut,
        message := "Connection Terminated by Server" },
    qr := none }

/-- An environment where every external teardown call succeeds. -/
def noFailRemoveEnv : RemoveEnv :=
  { logoutFails := fun _ => false, rmFails := fun _ => false }

/-- An environment where every credential-directory removal fails (for
example a filesystem permission error; not an ENOENT). -/
def rmFailRemoveEnv : RemoveEnv :=
  { logoutFails := fun _ => false, rmFails := fun _ => true }

/-- The manager state after three consecutive restart-required disconnects
for tenant t1, each followed by its armed re-creation timer firing with a
successful fresh creation. -/
def c1Trace : MgrState :=
  let r1 := getOrCreateBaileysSession 0 "t1" MgrState.init
  let st2 := handleConnectionUpdate noFailRemoveEnv r1.1 1 "t1" restartCloseUpdate r1.2
  let st3 := fireRecreationTimer 2 "t1" true st2
  let st4 := handleConnectionUpdate noFailRemoveEnv 1 3 "t1" restartCloseUpdate st3
  let st5 := fireRecreationTimer 4 "t1" true st4
  let st6 := handleConnectionUpdate noFailRemoveEnv 2 5 "t1" restartCloseUpdate st5
  let st7 := fireRecreationTimer 6 "t1" true st6
  st7

/-- The map entry created by a fresh `getOrCreateBaileysSession 0 "t1"` on
the initial state. -/
def t1FreshEntry : BaileysSession :=
  { mcpSessionId := "t1", socketId := 0, stateDir := stateDirFor "t1",
    creationTime := 0, lastActivityTime := 0, qrCode := none,
    retryCount := 0, wsOpen := false }

/-- A single-tenant manager state holding the fresh t1 entry. -/
def t1State : MgrState := (getOrCreateBaileysSession 0 "t1" MgrState.init).2

/-- The canonical message-type tags the adapter can emit: the two text
branches, the five refined media kinds plus the generic media tag used when
the kind is missing, and the remaining branch tags. -/
def mcpMessageTypeTags : List String :=
  ["text", "image", "video", "audio", "document", "sticker", "media",
   "reaction", "location", "contact", "contacts_array", "unknown"]

/-- True when none of the sub-fields recognized by the adapter ladder is
populated (the conversation guard is JS truthiness, so an empty-string
conversation also falls through). -/
def noRecognizedField (c : RawMsgContent) : Bool :=
  strFalsy c.conversation && c.extendedTextMessage.isNone && c.imageMessage.isNone
    && c.videoMessage.isNone && c.audioMessage.isNone && c.documentMessage.isNone
    && c.stickerMessage.isNone && c.reactionMessage.isNone && c.locationMessage.isNone
    && c.contactMessage.isNone && c.contactsArrayMessage.isNone

/-- An inbound image message: mediaKey and url present, a known file name. -/
def imageWAMessage : WAMessage :=
  { key := { id := "msg-1", remoteJid := "15550001111@s.whatsapp.net",
             participant := none, fromMe := false },
    message := some
      { conversation := none, extendedTextMessage := none,
        imageMessage := some
          { mediaKeyPresent := true, urlPresent := true, caption := none,
            fileName := some "pic.jpg", mimetype := some "image/jpeg" },
        videoMessage := none, audioMessage := none, documentMessage := none,
        stickerMessage := none, reactionMessage := none, locationMessage := none,
        contactMessage := none, contactsArrayMessage := none, otherKeys := [] },
    messageTimestamp := some 1700000000 }

/-- A media environment where the download succeeds. -/
def okMediaEnv : MediaEnv :=
  { downloadResult := Except.ok 0, freshName := "uuid-1" }

/-- An inbound message whose only populated sub-field is unrecognized. -/
def protocolOnlyWAMessage : WAMessage :=
  { key := { id := "msg-2", remoteJid := "15550001111@s.whatsapp.net",
             participant := none, fromMe := false },
    message := some
      { conversation := none, extendedTextMessage := none, imageMessage := none,
        videoMessage := none, audioMessage := none, documentMessage := none,
        stickerMessage := none, reactionMessage := none, locationMessage := none,
        contactMessage := none, contactsArrayMessage := none,
        otherKeys := ["protocolMessage"] },
    messageTimestamp := some 1700000000 }

/-- A client registry holding one open, healthy SSE connection for tenant
t1. -/
def openT1Registry : McpRegistry :=
  [("t1", { id := "t1",
            connection := { closed := false, destroyed := false,
                            writeFails := false, written := [] },
            lastSeen := 0 })]

/-- A two-tenant manager state for the sweep-isolation scenario: both
entries long idle. -/
def twoTenantState : MgrState :=
  { sessions :=
      [("tA", { mcpSessionId := "tA", socketId := 0, stateDir := stateDirFor "tA",
                creationTime := 0, lastActivityTime := 0, qrCode := none,
                retryCount := 0, wsOpen := true }),
       ("tB", { mcpSessionId := "tB", socketId := 1, stateDir := stateDirFor "tB",
                creationTime := 0, lastActivityTime := 0, qrCode := none,
                retryCount := 0, wsOpen := true })],
    nextSocketId := 2, factoryCalls := 2, scheduledRecreations := 0,
    pendingTimers := [], authDirs := [stateDirFor "tA", stateDirFor "tB"],
    emitted := [] }

/-- An environment where the logout call of socket 0 (tenant tA) rejects, so
the removal of tA falls back to the forced `end` and its failure is caught. -/
def logoutFailsOnA : RemoveEnv :=
  { logoutFails := fun sockId => sockId == 0, rmFails := fun _ => false }

/-! ## Association-list lemmas shared by the claim proofs -/

theorem beq_flip_false {a b : String} (h : (a == b) = false) : (b == a) = false := by
  cases hbe : b == a
  · rfl
  · exfalso
    have hba : b = a := by simpa using hbe
    subst hba
    simp at h

theorem assocFind?_nil {β : Type} (k : String) :
    assocFind? k ([] : List (String × β)) = none := rfl

theorem assocFind?_cons {β : Type} (k : String) (p : String × β) (m : List (String × β)) :
    assocFind? k (p :: m) =
      (if p.fst == k then some p.snd else assocFind? k m) := by
  cases hp : p.fst == k <;> simp [assocFind?, List.find?, hp]

theorem assocUpdate_cons {β : Type} (k : String) (f : β → β) (p : String × β)
    (m : List (String × β)) :
    assocUpdate k f (p :: m) =
      (if p.fst == k then (p.fst, f p.snd) else p) :: assocUpdate k f m := rfl

theorem assocErase_cons {β : Type} (k : String) (p : String × β) (m : List (String × β)) :
    assocErase k (p :: m) =
      (if p.fst == k then assocErase k m else p :: assocErase k m) := by
  cases hp : p.fst == k <;> simp [assocErase, List.filter_cons, bne, hp]

theorem assocFind?_update_self {β : Type} (k : String) (f : β → β) (m : List (String × β)) :
    assocFind? k (assocUpdate k f m) = (assocFind? k m).map f := by
  induction m with
  | nil => rfl
  | cons p m ih =>
      rw [assocUpdate_cons, assocFind?_cons]
      cases hp : p.fst == k <;> simp [assocFind?_cons, hp, ih]

theorem assocFind?_erase_self {β : Type} (k : String) (m : List (String × β)) :
    assocFind? k (assocErase k m) = none := by
  induction m with
  | nil => rfl
  | cons p m ih =>
      rw [assocErase_cons]
      cases hp : p.fst == k <;> simp [assocFind?_cons, hp, ih]

theorem assocFind?_erase_ne {β : Type} (k k' : String) (m : List (String × β))
    (h : (k' == k) = false) :
    assocFind? k' (assocErase k m) = assocFind? k' m := by
  induction m with
  | nil => rfl
  | cons p m ih =>
      rw [assocErase_cons]
      cases hp : p.fst == k
      · simp [assocFind?_cons, ih]
      · have hpk : p.fst = k := by simpa using hp
        have hne : (p.fst == k') = false := by rw [hpk]; exact beq_flip_false h
        simp [assocFind?_cons, hne, ih]

theorem assocFind?_update_ne {β : Type} (k k' : String) (f : β → β) (m : List (String × β))
    (h : (k' == k) = false) :
    assocFind? k' (assocUpdate k f m) = assocFind? k' m := by
  induction m with
  | nil => rfl
  | cons p m ih =>
      rw [assocUpdate_cons]
      cases hp : p.fst == k
      · simp [assocFind?_cons, ih]
      · have hpk : p.fst = k := by simpa using hp
        have hne : (p.fst == k') = false := by rw [hpk]; exact beq_flip_false h
        simp [assocFind?_cons, hne, ih]

theorem assocFind?_append_of_none {β : Type} (k : String) (m m' : List (String × β))
    (h : assocFind? k m = none) :
    assocFind? k (m ++ m') = assocFind? k m' := by
  induction m with
  | nil => simp
  | cons p m ih =>
      rw [assocFind?_cons] at h
      cases hp : p.fst == k
      · rw [hp] at h
        rw [List.cons_append, assocFind?_cons, hp]
        simp only [Bool.false_eq_true, if_false]
        exact ih (by simpa using h)
      · rw [hp] at h
        simp at h

theorem assocUpdate_of_none {β : Type} (k : String) (f : β → β) (m : List (String × β))
    (h : assocFind? k m = none) :
    assocUpdate k f m = m := by
  induction m with
  | nil => rfl
  | cons p m ih =>
      rw [assocFind?_cons] at h
      cases hp : p.fst == k
      · rw [hp] at h
        rw [assocUpdate_cons, hp]
        simp only [Bool.false_eq_true, if_false]
        rw [ih (by simpa using h)]
      · rw [hp] at h
        simp at h

theorem contains_filter_ne_self (l : List String) (a : String) :
    (l.filter (· != a)).contains a = false := by
  induction l with
  | nil => rfl
  | cons x l ih =>
      rw [List.filter_cons]
      cases hb : x != a
      · simpa using ih
      · have hax : (a == x) = false := beq_flip_false (by simpa [bne] using hb)
        have hne : ¬a = x := by simpa using hax
        simp [List.contains_cons, hax, ih, hne]

/-! ## Claim C10: messages.upsert filtering -/

theorem upsert_foldl_emitted (t : String) (msgs : List UpsertMsg) (st : MgrState) :
    (msgs.foldl (upsertStep t) st).emitted =
      st.emitted ++ (msgs.filter (fun m => m.hasMessage && !m.fromMe)).map
        (fun m => CbEvent.onMessage t m.msgId) := by
  induction msgs generalizing st with
  | nil => simp
  | cons m msgs ih =>
      rw [List.foldl_cons, List.filter_cons]
      cases hc : m.hasMessage && !m.fromMe
      · simp only [upsertStep, hc, Bool.false_eq_true, if_false]
        rw [ih]
      · simp only [upsertStep, hc, if_true]
        rw [ih]
        simp

/-- C10: the onMessage callback is invoked exactly for the messages of the
batch that have non-null content and are not sent by the own account
(`key.fromMe` false); in particular a self-sent or content-less message never
produces a client-facing message event. -/
theorem c10_message_events_filtered (t : String) (msgs : List UpsertMsg) (st : MgrState) :
    (handleMessagesUpsert t msgs st).emitted =
      st.emitted ++ (msgs.filter (fun m => m.hasMessage && !m.fromMe)).map
        (fun m => CbEvent.onMessage t m.msgId) := by
  cases msgs with
  | nil => simp [handleMessagesUpsert]
  | cons m msgs =>
      have h := upsert_foldl_emitted t (m :: msgs) st
      simpa [handleMessagesUpsert] using h

/-! ## Claim C2: idempotent creation -/

/-- C2: for any tenantId, a second getOrCreate call arriving before the
first connection reaches OPEN returns the same socket handle, triggers no
second factory invocation, refreshes the entry activity timestamp, and
replays the pending QR code to the caller onQR callback. -/
theorem c2_idempotent_creation (t q : String) (n0 n1 n2 : Nat) (env : RemoveEnv) :
    (let r1 := getOrCreateBaileysSession n0 t MgrState.init
     let stA := handleConnectionUpdate env r1.1 n1 t (qrUpd q) r1.2
     let r2 := getOrCreateBaileysSession n2 t stA
     r2.1 = r1.1 ∧ r1.2.factoryCalls = 1 ∧ r2.2.factoryCalls = 1
      ∧ r2.2.emitted = stA.emitted ++ [CbEvent.onQR t q]
      ∧ (assocFind? t r2.2.sessions).map (fun s => s.lastActivityTime) = some n2) := by
  simp [getOrCreateBaileysSession, handleConnectionUpdate, MgrState.init, assocFind?,
    assocUpdate, updateCaptured, qrUpd, List.find?, stateDirFor]

/-! ## Claim C4: QR freshness -/

/-- C4: a second QR value overwrites the first, a late subscriber is
replayed only the latest value, reaching OPEN clears the stored code, and
after OPEN a late subscriber is replayed nothing. -/
theorem c4_qr_freshness (t q1 q2 : String) (n0 n1 n2 n3 n4 n5 : Nat) (env : RemoveEnv) :
    (let r1 := getOrCreateBaileysSession n0 t MgrState.init
     let stB := handleConnectionUpdate env r1.1 n2 t (qrUpd q2)
       (handleConnectionUpdate env r1.1 n1 t (qrUpd q1) r1.2)
     let stC := handleConnectionUpdate env r1.1 n4 t openUpd stB
     ((assocFind? t stB.sessions).map (fun s => s.qrCode) = some (some q2))
      ∧ (getOrCreateBaileysSession n3 t stB).2.emitted = stB.emitted ++ [CbEvent.onQR t q2]
      ∧ ((assocFind? t stC.sessions).map (fun s => s.qrCode) = some none)
      ∧ (getOrCreateBaileysSession n5 t stC).2.emitted = stC.emitted) := by
  simp [getOrCreateBaileysSession, handleConnectionUpdate, MgrState.init, assocFind?,
    assocUpdate, updateCaptured, qrUpd, openUpd, List.find?, stateDirFor]

/-! ## Claim C1: retry bookkeeping -/

theorem updateCaptured_retry (t : String) (selfId : Nat) (f : BaileysSession → BaileysSession)
    (m : List (String × BaileysSession))
    (hf : ∀ x, (f x).retryCount = x.retryCount) :
    (assocFind? t (updateCaptured t selfId f m)).map BaileysSession.retryCount
      = (assocFind? t m).map BaileysSession.retryCount := by
  rw [updateCaptured, assocFind?_update_self]
  cases assocFind? t m with
  | none => rfl
  | some s0 =>
      by_cases h : s0.socketId = selfId <;> simp [h, hf]

theorem removeBaileysSession_find_self (env : RemoveEnv) (t : String) (d : Bool)
    (st : MgrState) :
    assocFind? t (removeBaileysSession env t d st).sessions = none := by
  unfold removeBaileysSession
  cases h : assocFind? t st.sessions with
  | none => simpa using h
  | some s =>
      cases d
      · simpa using assocFind?_erase_self t st.sessions
      · by_cases hrm : env.rmFails s.stateDir = true <;>
          simp [hrm, assocFind?_erase_self]

theorem removeBaileysSession_find_other (env : RemoveEnv) (k t : String) (d : Bool)
    (st : MgrState) (hne : (t == k) = false) :
    assocFind? t (removeBaileysSession env k d st).sessions = assocFind? t st.sessions := by
  unfold removeBaileysSession
  cases h : assocFind? k st.sessions with
  | none => rfl
  | some s =>
      cases d
      · simpa using assocFind?_erase_ne k t st.sessions hne
      · by_cases hrm : env.rmFails s.stateDir = true <;>
          simp [hrm, assocFind?_erase_ne k t st.sessions hne]


theorem openResetsRetry (env : RemoveEnv) (selfId now : Nat) (t : String) (u : ConnUpdate)
    (st : MgrState) (s : BaileysSession)
    (hconn : u.connection = some "open")
    (hfind : assocFind? t (handleConnectionUpdate env selfId now t u st).sessions = some s) :
    s.retryCount = 0 := by
  unfold handleConnectionUpdate at hfind
  rw [hconn] at hfind
  simp only [show ((some "open" == some "close") = false) by decide,
    show ((some "open" == some "open") = true) by decide, if_false, if_true,
    Bool.false_eq_true, updateCaptured] at hfind
  cases hq : u.qr <;> rw [hq] at hfind <;>
    simp only [assocFind?_update_self, Option.map_map] at hfind <;>
    rcases Option.map_eq_some'.mp hfind with ⟨s0, hs0, rfl⟩ <;>
    by_cases hsock : s0.socketId = selfId <;> simp [Function.comp, hsock]

theorem retryMonotone (env : RemoveEnv) (selfId now : Nat) (t : String) (u : ConnUpdate)
    (st : MgrState) (s s' : BaileysSession)
    (hnr : u.connection = some "close" → isRestartRequiredUpdate u = false)
    (hfind : assocFind? t st.sessions = some s)
    (hfind' : assocFind? t (handleConnectionUpdate env selfId now t u st).sessions = some s') :
    s'.retryCount ≤ s.retryCount := by
  cases hcl : u.connection == some "close" with
  | true =>
      have hc : u.connection = some "close" := by simpa using hcl
      have hr : isRestartRequiredUpdate u = false := hnr hc
      unfold handleConnectionUpdate at hfind'
      rw [hcl] at hfind'
      simp only [if_true] at hfind'
      cases hlo : isLoggedOutUpdate u with
      | true =>
          rw [hlo] at hfind'
          simp only [if_true] at hfind'
          rw [removeBaileysSession_find_self] at hfind'
          cases hfind'
      | false =>
          rw [hlo, hr] at hfind'
          simp only [Bool.false_eq_true, if_false] at hfind'
          cases hq : u.qr with
          | none =>
              rw [hq] at hfind'
              dsimp only at hfind'
              have h1 := updateCaptured_retry t selfId
                (fun s => { s with lastActivityTime := now }) st.sessions (fun x => rfl)
              rw [hfind', hfind] at h1
              exact le_of_eq (by simpa using h1)
          | some q =>
              rw [hq] at hfind'
              dsimp only at hfind'
              have h1 := updateCaptured_retry t selfId
                (fun s => { s with lastActivityTime := now }) st.sessions (fun x => rfl)
              have h2 := updateCaptured_retry t selfId
                (fun s => { s with qrCode := some q })
                (updateCaptured t selfId (fun s => { s with lastActivityTime := now })
                  st.sessions) (fun x => rfl)
              have h3 := h2.trans h1
              rw [hfind', hfind] at h3
              exact le_of_eq (by simpa using h3)
  | false =>
      cases hop : u.connection == some "open" with
      | true =>
          have hconn : u.connection = some "open" := by simpa using hop
          have h0 := openResetsRetry env selfId now t u st s' hconn hfind'
          rw [h0]
          exact Nat.zero_le _
      | false =>
          unfold handleConnectionUpdate at hfind'
          rw [hcl, hop] at hfind'
          simp only [Bool.false_eq_true, if_false] at hfind'
          cases hq : u.qr with
          | none =>
              rw [hq] at hfind'
              dsimp only at hfind'
              have h1 := updateCaptured_retry t selfId
                (fun s => { s with lastActivityTime := now }) st.sessions (fun x => rfl)
              rw [hfind', hfind] at h1
              exact le_of_eq (by simpa using h1)
          | some q =>
              rw [hq] at hfind'
              dsimp only at hfind'
              have h1 := updateCaptured_retry t selfId
                (fun s => { s with lastActivityTime := now }) st.sessions (fun x => rfl)
              have h2 := updateCaptured_retry t selfId
                (fun s => { s with qrCode := some q })
                (updateCaptured t selfId (fun s => { s with lastActivityTime := now })
                  st.sessions) (fun x => rfl)
              have h3 := h2.trans h1
              rw [hfind', hfind] at h3
              exact le_of_eq (by simpa using h3)


/-- C1 counterexample: after three consecutive restart-required disconnects
for tenant t1, each followed by its successfully-fired re-creation timer, the
tenant is still present in the session map (the claim asserts it is absent),
and a fourth restart-required disconnect schedules a fourth re-creation (the
claim asserts no further timer is scheduled). -/
theorem c1_counterexample :
    ((assocFind? "t1" c1Trace.sessions).isSome = true)
    ∧ c1Trace.scheduledRecreations = 3
    ∧ (handleConnectionUpdate noFailRemoveEnv 3 7 "t1" restartCloseUpdate
        c1Trace).scheduledRecreations = 4 := by
  refine ⟨by decide, by decide, by decide⟩

/-- C1 (amended): retryCount resets to zero on reaching OPEN and increments
only on a restart-required disconnect classification (it is a natural number,
hence never negative); three consecutive restart-required disconnects result
in exactly three scheduled re-creations, but each successful re-creation
re-inserts the tenant with retryCount 0, so the tenant is then present in the
map and a fourth restart-required disconnect schedules a fourth re-creation;
the tenant ends absent only when a scheduled re-creation itself fails. -/
theorem c1_retry_bookkeeping :
    (∀ env selfId now t u (st : MgrState) s,
        u.connection = some "open" →
        assocFind? t (handleConnectionUpdate env selfId now t u st).sessions = some s →
        s.retryCount = 0)
    ∧ (∀ env selfId now t u (st : MgrState) s s',
        (u.connection = some "close" → isRestartRequiredUpdate u = false) →
        assocFind? t st.sessions = some s →
        assocFind? t (handleConnectionUpdate env selfId now t u st).sessions = some s' →
        s'.retryCount ≤ s.retryCount)
    ∧ c1Trace.scheduledRecreations = 3
    ∧ (assocFind? "t1" c1Trace.sessions).map (fun s => s.retryCount) = some 0
    ∧ (handleConnectionUpdate noFailRemoveEnv 3 7 "t1" restartCloseUpdate
        c1Trace).scheduledRecreations = 4
    ∧ (∀ now t (st : MgrState),
        assocFind? t (fireRecreationTimer now t false st).sessions = none) := by
  refine ⟨openResetsRetry, retryMonotone, by decide, by decide, by decide, ?_⟩
  intro now t st
  simp [fireRecreationTimer, assocFind?_erase_self]

/-- Witness for the C1 amended theorem: the OPEN reset, the no-increment
case, and the failed-re-creation absence, each at tenant t1. -/
theorem c1_retry_bookkeeping_witness :
    ({ mcpSessionId := "t1", socketId := 0, stateDir := ".baileys_auth_state/session_t1",
       creationTime := 0, lastActivityTime := 1, qrCode := none, retryCount := 0,
       wsOpen := true } : BaileysSession).retryCount = 0
    ∧ ({ mcpSessionId := "t1", socketId := 0, stateDir := ".baileys_auth_state/session_t1",
         creationTime := 0, lastActivityTime := 1, qrCode := some "QQ", retryCount := 0,
         wsOpen := false } : BaileysSession).retryCount ≤ t1FreshEntry.retryCount
    ∧ assocFind? "t1" (fireRecreationTimer 5 "t1" false t1State).sessions = none := by
  refine ⟨?_, ?_, ?_⟩
  · exact c1_retry_bookkeeping.1 noFailRemoveEnv 0 1 "t1" openUpd t1State _
      (by decide) (by decide)
  · exact c1_retry_bookkeeping.2.1 noFailRemoveEnv 0 1 "t1" (qrUpd "QQ") t1State
      t1FreshEntry _ (by decide) (by decide) (by decide)
  · exact c1_retry_bookkeeping.2.2.2.2.2 5 "t1" t1State

/-! ## Claim C3: logout finality -/

/-- C3 counterexample: when the recursive removal of the credential
directory fails (a caught, logged filesystem error), a terminal-logout
disconnect still removes the map entry but leaves the credential directory
present, contradicting the claimed unconditional absence. -/
theorem c3_counterexample :
    (assocFind? "t1" (handleConnectionUpdate rmFailRemoveEnv 0 1 "t1" loggedOutCloseUpdate
        t1State).sessions = none)
    ∧ ((handleConnectionUpdate rmFailRemoveEnv 0 1 "t1" loggedOutCloseUpdate
        t1State).authDirs.contains (stateDirFor "t1") = true) := by
  refine ⟨by decide, by decide⟩

/-- C3 (amended): a terminal-logout disconnect always removes the map entry,
schedules no reconnection, and — provided the recursive credential-directory
removal does not itself fail — leaves the credential directory absent; a
subsequent getOrCreate for the same tenant performs a full fresh creation
(one new factory invocation, a brand-new handle, retryCount 0). -/
theorem c3_logout_finality (env : RemoveEnv) (selfId now now2 : Nat) (t : String)
    (st : MgrState) (s : BaileysSession)
    (hfind : assocFind? t st.sessions = some s)
    (hrm : env.rmFails s.stateDir = false) :
    (assocFind? t (handleConnectionUpdate env selfId now t loggedOutCloseUpdate st).sessions
        = none)
    ∧ ((handleConnectionUpdate env selfId now t loggedOutCloseUpdate st).authDirs.contains
        s.stateDir = false)
    ∧ ((handleConnectionUpdate env selfId now t loggedOutCloseUpdate st).scheduledRecreations
        = st.scheduledRecreations)
    ∧ ((getOrCreateBaileysSession now2 t
          (handleConnectionUpdate env selfId now t loggedOutCloseUpdate st)).1
        = st.nextSocketId)
    ∧ ((getOrCreateBaileysSession now2 t
          (handleConnectionUpdate env selfId now t loggedOutCloseUpdate st)).2.factoryCalls
        = st.factoryCalls + 1)
    ∧ (assocFind? t (getOrCreateBaileysSession now2 t
          (handleConnectionUpdate env selfId now t loggedOutCloseUpdate st)).2.sessions
        = some { mcpSessionId := t, socketId := st.nextSocketId, stateDir := stateDirFor t,
                 creationTime := now2, lastActivityTime := now2, qrCode := none,
                 retryCount := 0, wsOpen := false }) := by
  have hstep : handleConnectionUpdate env selfId now t loggedOutCloseUpdate st
      = removeBaileysSession env t true
          { st with
              sessions := updateCaptured t selfId
                (fun s => { s with lastActivityTime := now }) st.sessions,
              emitted := st.emitted ++ [CbEvent.onDisconnected t] } := rfl
  have hfindL : assocFind? t (updateCaptured t selfId
      (fun x => { x with lastActivityTime := now }) st.sessions)
      = some (if s.socketId == selfId then { s with lastActivityTime := now } else s) := by
    rw [updateCaptured, assocFind?_update_self, hfind]
    rfl
  have hdir : (if s.socketId == selfId then { s with lastActivityTime := now } else s).stateDir
      = s.stateDir := by
    cases s.socketId == selfId <;> rfl
  have hrm' : env.rmFails
      (if s.socketId == selfId then { s with lastActivityTime := now } else s).stateDir
      = false := by rw [hdir]; exact hrm
  have hrem : handleConnectionUpdate env selfId now t loggedOutCloseUpdate st
      = { st with
            sessions := assocErase t (updateCaptured t selfId
              (fun s => { s with lastActivityTime := now }) st.sessions),
            emitted := st.emitted ++ [CbEvent.onDisconnected t],
            authDirs := st.authDirs.filter (· != s.stateDir) } := by
    rw [hstep]
    unfold removeBaileysSession
    simp only [hfindL, hdir, hrm, hrm', Bool.false_eq_true, if_false, if_true]
  rw [hrem]
  have herase : assocFind? t (assocErase t (updateCaptured t selfId
      (fun s => { s with lastActivityTime := now }) st.sessions)) = none :=
    assocFind?_erase_self _ _
  refine ⟨herase, ?_, rfl, ?_, ?_, ?_⟩
  · exact contains_filter_ne_self _ _
  · unfold getOrCreateBaileysSession
    dsimp only
    rw [herase]
  · unfold getOrCreateBaileysSession
    dsimp only
    rw [herase]
  · unfold getOrCreateBaileysSession
    dsimp only
    rw [herase]
    dsimp only
    rw [assocFind?_append_of_none _ _ _ herase, assocFind?_cons]
    simp


/-- Witness for the C3 amended theorem at tenant t1 with a healthy
filesystem. -/
theorem c3_logout_finality_witness :
    (assocFind? "t1" (handleConnectionUpdate noFailRemoveEnv 0 1 "t1" loggedOutCloseUpdate
        t1State).sessions = none)
    ∧ ((handleConnectionUpdate noFailRemoveEnv 0 1 "t1" loggedOutCloseUpdate
        t1State).authDirs.contains t1FreshEntry.stateDir = false)
    ∧ ((handleConnectionUpdate noFailRemoveEnv 0 1 "t1" loggedOutCloseUpdate
        t1State).scheduledRecreations = t1State.scheduledRecreations)
    ∧ ((getOrCreateBaileysSession 2 "t1" (handleConnectionUpdate noFailRemoveEnv 0 1 "t1"
        loggedOutCloseUpdate t1State)).1 = t1State.nextSocketId)
    ∧ ((getOrCreateBaileysSession 2 "t1" (handleConnectionUpdate noFailRemoveEnv 0 1 "t1"
        loggedOutCloseUpdate t1State)).2.factoryCalls = t1State.factoryCalls + 1)
    ∧ (assocFind? "t1" (getOrCreateBaileysSession 2 "t1" (handleConnectionUpdate
        noFailRemoveEnv 0 1 "t1" loggedOutCloseUpdate t1State)).2.sessions
        = some { mcpSessionId := "t1", socketId := t1State.nextSocketId,
                 stateDir := stateDirFor "t1", creationTime := 2, lastActivityTime := 2,
                 qrCode := none, retryCount := 0, wsOpen := false }) :=
  c3_logout_finality noFailRemoveEnv 0 1 2 "t1" t1State t1FreshEntry (by decide) rfl

/-! ## Claim C9: sweep isolation -/

theorem assocFind?_mem_keys {β : Type} (t : String) (m : List (String × β)) (s : β)
    (h : assocFind? t m = some s) : t ∈ m.map Prod.fst := by
  induction m with
  | nil => cases h
  | cons p m ih =>
      rw [assocFind?_cons] at h
      cases hp : p.fst == t
      · rw [hp] at h
        simp only [Bool.false_eq_true, if_false] at h
        simp only [List.map, List.mem_cons]
        exact Or.inr (ih h)
      · have hpt : p.fst = t := by simpa using hp
        simp [List.map, List.mem_cons, hpt]

theorem cleanupStep_none (env : RemoveEnv) (now maxIdle : Nat) (acc : MgrState)
    (k t : String) (h : assocFind? t acc.sessions = none) :
    assocFind? t (cleanupStep env now maxIdle acc k).sessions = none := by
  unfold cleanupStep
  cases hk : assocFind? k acc.sessions with
  | none => simpa using h
  | some sess =>
      dsimp only
      by_cases hstale : now - sess.lastActivityTime > maxIdle
      · rw [if_pos hstale]
        cases htk : t == k
        · rw [removeBaileysSession_find_other env k t false acc htk]
          exact h
        · have ht : t = k := by simpa using htk
          subst ht
          rw [h] at hk
          cases hk
      · rw [if_neg hstale]
        exact h

theorem cleanupStep_other (env : RemoveEnv) (now maxIdle : Nat) (acc : MgrState)
    (k t : String) (hne : (t == k) = false) :
    assocFind? t (cleanupStep env now maxIdle acc k).sessions
      = assocFind? t acc.sessions := by
  unfold cleanupStep
  cases hk : assocFind? k acc.sessions with
  | none => rfl
  | some sess =>
      dsimp only
      by_cases hstale : now - sess.lastActivityTime > maxIdle
      · rw [if_pos hstale]
        exact removeBaileysSession_find_other env k t false acc hne
      · rw [if_neg hstale]

theorem cleanup_foldl_none (env : RemoveEnv) (now maxIdle : Nat) (ks : List String)
    (acc : MgrState) (t : String) (h : assocFind? t acc.sessions = none) :
    assocFind? t (ks.foldl (cleanupStep env now maxIdle) acc).sessions = none := by
  induction ks generalizing acc with
  | nil => simpa using h
  | cons k ks ih =>
      rw [List.foldl_cons]
      exact ih _ (cleanupStep_none env now maxIdle acc k t h)

theorem cleanup_foldl_removes (env : RemoveEnv) (now maxIdle : Nat) (ks : List String)
    (acc : MgrState) (t : String) (s : BaileysSession)
    (hmem : t ∈ ks) (hf : assocFind? t acc.sessions = some s)
    (hstale : now - s.lastActivityTime > maxIdle) :
    assocFind? t (ks.foldl (cleanupStep env now maxIdle) acc).sessions = none := by
  induction ks generalizing acc with
  | nil => cases hmem
  | cons k ks ih =>
      rw [List.foldl_cons]
      cases htk : t == k
      · have hk : t ∈ ks := by
          rcases List.mem_cons.mp hmem with h1 | h1
          · exfalso
            rw [h1] at htk
            simp at htk
          · exact h1
        have hpres := cleanupStep_other env now maxIdle acc k t htk
        exact ih _ hk (hpres.trans hf)
      · have ht : t = k := by simpa using htk
        subst ht
        have hnone : assocFind? t (cleanupStep env now maxIdle acc t).sessions = none := by
          unfold cleanupStep
          rw [hf]
          dsimp only
          rw [if_pos hstale]
          exact removeBaileysSession_find_self env t false acc
        exact cleanup_foldl_none env now maxIdle ks _ t hnone


/-- C9: during an inactivity sweep, a failure while removing one stale entry
(a rejected logout on that entry, caught inside removeBaileysSession, whose
forced-end fallback then runs) does not prevent the sweep from removing the
other stale entries: both the failing entry and every other stale entry are
absent after the sweep. -/
theorem c9_sweep_isolation (env : RemoveEnv) (now maxIdle : Nat) (st : MgrState)
    (a b : String) (sa sb : BaileysSession)
    (hfa : assocFind? a st.sessions = some sa)
    (hfb : assocFind? b st.sessions = some sb)
    (hsa : now - sa.lastActivityTime > maxIdle)
    (hsb : now - sb.lastActivityTime > maxIdle)
    (hfail : env.logoutFails sa.socketId = true) :
    assocFind? b (cleanupInactiveBaileysSessions env now maxIdle st).sessions = none
    ∧ assocFind? a (cleanupInactiveBaileysSessions env now maxIdle st).sessions = none := by
  constructor
  · exact cleanup_foldl_removes env now maxIdle (st.sessions.map Prod.fst) st b sb
      (assocFind?_mem_keys b st.sessions sb hfb) hfb hsb
  · exact cleanup_foldl_removes env now maxIdle (st.sessions.map Prod.fst) st a sa
      (assocFind?_mem_keys a st.sessions sa hfa) hfa hsa

/-- Witness for C9: in the two-tenant state where the logout of tenant tA
rejects, the sweep still removes tenant tB (and tA itself). -/
theorem c9_sweep_isolation_witness :
    assocFind? "tB" (cleanupInactiveBaileysSessions logoutFailsOnA 3600001 3600000
        twoTenantState).sessions = none
    ∧ assocFind? "tA" (cleanupInactiveBaileysSessions logoutFailsOnA 3600001 3600000
        twoTenantState).sessions = none :=
  c9_sweep_isolation logoutFailsOnA 3600001 3600000 twoTenantState "tA" "tB"
    { mcpSessionId := "tA", socketId := 0, stateDir := stateDirFor "tA",
      creationTime := 0, lastActivityTime := 0, qrCode := none, retryCount := 0,
      wsOpen := true }
    { mcpSessionId := "tB", socketId := 1, stateDir := stateDirFor "tB",
      creationTime := 0, lastActivityTime := 0, qrCode := none, retryCount := 0,
      wsOpen := true }
    (by decide) (by decide) (by decide) (by decide) (by decide)

/-! ## Claim C6: broadcaster delivery flag -/

/-- C6: sendEventToClient is a total function of its inputs (no failure
escapes to the caller); it returns false when the registry has no entry for
the id or the transport is closed or destroyed, reports a write failure as
false, and on an open healthy transport serializes the event into the SSE
wire envelope, appends it to the transport writes, and returns true. -/
theorem c6_send_total (now : Nat) (sid eventType dataJson : String) (reg : McpRegistry) :
    (assocFind? sid reg = none →
      sendEventToClient now sid eventType dataJson reg = (false, reg))
    ∧ (∀ s, assocFind? sid reg = some s →
        (s.connection.closed || s.connection.destroyed) = true →
        (sendEventToClient now sid eventType dataJson reg).1 = false)
    ∧ (∀ s, assocFind? sid reg = some s →
        (s.connection.closed || s.connection.destroyed) = false →
        s.connection.writeFails = true →
        (sendEventToClient now sid eventType dataJson reg).1 = false)
    ∧ (∀ s, assocFind? sid reg = some s →
        (s.connection.closed || s.connection.destroyed) = false →
        s.connection.writeFails = false →
        (sendEventToClient now sid eventType dataJson reg).1 = true
        ∧ (assocFind? sid (sendEventToClient now sid eventType dataJson reg).2).map
            (fun x => x.connection.written)
          = some (s.connection.written ++
              [(if eventType.isEmpty then "" else "event: " ++ eventType ++ "
")
                ++ "data: " ++ dataJson ++ "

"])) := by
  unfold sendEventToClient getSession
  cases hf : assocFind? sid reg with
  | none =>
      dsimp only
      refine ⟨fun _ => rfl, ?_, ?_, ?_⟩ <;>
        first
          | (intro s hs hb; cases hs)
          | (intro s hs hb hw; cases hs)
  | some s0 =>
      dsimp only
      refine ⟨?_, ?_, ?_, ?_⟩
      · intro h
        cases h
      · intro s hs h2
        cases hs
        simp [h2]
      · intro s hs h2 h3
        cases hs
        simp [h2, h3]
      · intro s hs h2 h3
        cases hs
        constructor
        · simp [h2, h3]
        · simp only [h2, h3, Bool.false_eq_true, if_false]
          rw [assocFind?_update_self]
          rw [assocFind?_update_self]
          rw [hf]
          simp


/-- Witness for C6: an absent id is reported undelivered, and a healthy
open transport receives the serialized envelope. -/
theorem c6_send_total_witness :
    (sendEventToClient 1 "nobody" "baileys_qr_update" "\x7b\x7d" openT1Registry
      = (false, openT1Registry))
    ∧ ((sendEventToClient 1 "t1" "baileys_qr_update" "\x7b\x7d" openT1Registry).1 = true
      ∧ (assocFind? "t1" (sendEventToClient 1 "t1" "baileys_qr_update" "\x7b\x7d"
          openT1Registry).2).map (fun x => x.connection.written)
        = some (([] : List String) ++
            [(if ("baileys_qr_update" : String).isEmpty then ""
               else "event: " ++ "baileys_qr_update" ++ "\n")
              ++ "data: " ++ "\x7b\x7d" ++ "\n\n"])) := by
  constructor
  · exact (c6_send_total 1 "nobody" "baileys_qr_update" "\x7b\x7d" openT1Registry).1
      (by decide)
  · exact (c6_send_total 1 "t1" "baileys_qr_update" "\x7b\x7d" openT1Registry).2.2.2
      { id := "t1",
        connection := { closed := false, destroyed := false, writeFails := false,
                        written := [] },
        lastSeen := 0 }
      (by decide) (by decide) (by decide)

/-! ## Claim C5: one terminal event per action -/

theorem sendTextMessage_side_nonterminal (env : TextSendEnv) (sid jid txt : String) :
    ((sendTextMessage env sid jid txt).1.filter SentEvent.isTerminal) = [] := by
  unfold sendTextMessage
  split
  · rfl
  · split
    · rfl
    · split <;> rfl

theorem mcpActionAttempt_side_nonterminal (env : ActionEnv) (sid : String)
    (a : McpClientAction) :
    ((mcpActionAttempt env sid a).1.filter SentEvent.isTerminal) = [] := by
  unfold mcpActionAttempt
  split
  · -- SEND_TEXT_MESSAGE
    split
    · rfl
    · cases hST : sendTextMessage env.textEnv sid (a.recipientJid.getD "") (a.text.getD "") with
      | mk side sentMsg =>
          have h := sendTextMessage_side_nonterminal env.textEnv sid
            (a.recipientJid.getD "") (a.text.getD "")
          rw [hST] at h
          cases sentMsg <;> simpa using h
  · split
    · -- SEND_IMAGE_MESSAGE
      split
      · rfl
      · split
        · rfl
        · split
          · rfl
          · split
            · rfl
            · split <;> rfl
    · rfl

/-- C5: every client action submitted to handleMcpClientAction results in
exactly one terminal response envelope handed to the event emitter — a
success or an error envelope — and that envelope echoes the original
actionType and requestId, on every path (valid send, failed send, invalid
payload, unknown action); no action is silently dropped. -/
theorem c5_exactly_one_terminal (env : ActionEnv) (sid : String) (a : McpClientAction) :
    (((handleMcpClientAction env sid a).filter SentEvent.isTerminal).length = 1)
    ∧ (((handleMcpClientAction env sid a).filter SentEvent.isTerminal).all
        (fun e => (e.originalActionType == some a.actionType)
          && (e.requestId == a.requestId)
          && ((e.eventType == "mcp_action_success")
              || (e.eventType == "mcp_action_error"))) = true) := by
  unfold handleMcpClientAction
  have hside := mcpActionAttempt_side_nonterminal env sid a
  cases hM : mcpActionAttempt env sid a with
  | mk side r =>
      rw [hM] at hside
      dsimp only at hside ⊢
      cases r with
      | ok u =>
          dsimp only
          rw [List.filter_append, hside]
          simp [sendResponse, SentEvent.isTerminal]
      | error e =>
          dsimp only
          rw [List.filter_append, hside]
          simp [sendResponse, SentEvent.isTerminal]


/-! ## Claim C7: adapter envelope tagging -/

theorem downloadAndProcessMedia_type (env : MediaEnv) (message : WAMessage) (stT : Bool)
    (mi : ProcessedMediaInfo) (h : downloadAndProcessMedia env message stT = some mi) :
    mi.type = "image" ∨ mi.type = "video" ∨ mi.type = "audio"
      ∨ mi.type = "document" ∨ mi.type = "sticker" := by
  rcases message with ⟨key, mm, ts⟩
  cases mm with
  | none => simp [downloadAndProcessMedia] at h
  | some c =>
      cases him : c.imageMessage with
      | some m =>
          simp only [downloadAndProcessMedia, him] at h
          repeat' split at h
          all_goals cases h
          all_goals
            first
              | exact Or.inl (by rfl)
              | exact Or.inr (Or.inl (by rfl))
              | exact Or.inr (Or.inr (Or.inl (by rfl)))
              | exact Or.inr (Or.inr (Or.inr (Or.inl (by rfl))))
              | exact Or.inr (Or.inr (Or.inr (Or.inr (by rfl))))
      | none =>
      cases hv : c.videoMessage with
      | some m =>
          simp only [downloadAndProcessMedia, him, hv] at h
          repeat' split at h
          all_goals cases h
          all_goals
            first
              | exact Or.inl (by rfl)
              | exact Or.inr (Or.inl (by rfl))
              | exact Or.inr (Or.inr (Or.inl (by rfl)))
              | exact Or.inr (Or.inr (Or.inr (Or.inl (by rfl))))
              | exact Or.inr (Or.inr (Or.inr (Or.inr (by rfl))))
      | none =>
      cases ha : c.audioMessage with
      | some m =>
          simp only [downloadAndProcessMedia, him, hv, ha] at h
          repeat' split at h
          all_goals cases h
          all_goals
            first
              | exact Or.inl (by rfl)
              | exact Or.inr (Or.inl (by rfl))
              | exact Or.inr (Or.inr (Or.inl (by rfl)))
              | exact Or.inr (Or.inr (Or.inr (Or.inl (by rfl))))
              | exact Or.inr (Or.inr (Or.inr (Or.inr (by rfl))))
      | none =>
      cases hd : c.documentMessage with
      | some m =>
          simp only [downloadAndProcessMedia, him, hv, ha, hd] at h
          repeat' split at h
          all_goals cases h
          all_goals
            first
              | exact Or.inl (by rfl)
              | exact Or.inr (Or.inl (by rfl))
              | exact Or.inr (Or.inr (Or.inl (by rfl)))
              | exact Or.inr (Or.inr (Or.inr (Or.inl (by rfl))))
              | exact Or.inr (Or.inr (Or.inr (Or.inr (by rfl))))
      | none =>
      cases hs : c.stickerMessage with
      | some m =>
          simp only [downloadAndProcessMedia, him, hv, ha, hd, hs] at h
          repeat' split at h
          all_goals cases h
          all_goals
            first
              | exact Or.inl (by rfl)
              | exact Or.inr (Or.inl (by rfl))
              | exact Or.inr (Or.inr (Or.inl (by rfl)))
              | exact Or.inr (Or.inr (Or.inr (Or.inl (by rfl))))
              | exact Or.inr (Or.inr (Or.inr (Or.inr (by rfl))))
      | none => simp [downloadAndProcessMedia, him, hv, ha, hd, hs] at h

/-- C7 counterexample: an image message with a successful download is tagged
"image", which is outside the claimed tag set text, media, reaction,
location, contact, contacts_array, unknown. -/
theorem c7_counterexample :
    (buildMcpMessagePayload okMediaEnv 0 imageWAMessage).type = "image"
    ∧ ((["text", "media", "reaction", "location", "contact", "contacts_array",
        "unknown"] : List String).contains
        (buildMcpMessagePayload okMediaEnv 0 imageWAMessage).type = false) := by
  refine ⟨by decide, by decide⟩

/-- C7 (amended): every payload is tagged with exactly one of text, image,
video, audio, document, sticker, media, reaction, location, contact,
contacts_array, unknown — media-bearing messages carry the refined media kind
and the generic media tag appears only when the kind is empty — selection is
first-match over the populated sub-fields, and the unknown fallback carries
the human-readable list of the sub-field keys that were present (or null when
the content is null), never an opaque failure. -/
theorem c7_adapter_tagging (env : MediaEnv) (nowSec : Nat) (message : WAMessage) :
    (mcpMessageTypeTags.contains (buildMcpMessagePayload env nowSec message).type = true)
    ∧ (∀ c, message.message = some c → noRecognizedField c = true →
        (buildMcpMessagePayload env nowSec message).type = "unknown"
        ∧ (buildMcpMessagePayload env nowSec message).text
            = some ("Received an unhandled message type. Content keys: "
                ++ joinSep ", " c.keys))
    ∧ (message.message = none →
        (buildMcpMessagePayload env nowSec message).type = "unknown"
        ∧ (buildMcpMessagePayload env nowSec message).text
            = some ("Received an unhandled message type. Content keys: null")) := by
  refine ⟨?_, ?_, ?_⟩
  · unfold buildMcpMessagePayload
    repeat' split
    all_goals try (dsimp only; decide)
    all_goals rename_i mi hmi
    all_goals dsimp only
    all_goals
      rcases downloadAndProcessMedia_type env message true mi hmi with h|h|h|h|h <;>
        rw [h] <;>
        first
          | (split <;> (dsimp only; decide))
          | (dsimp only; decide)
  · intro c hc hn
    simp only [noRecognizedField, Bool.and_eq_true, Option.isNone_iff_eq_none] at hn
    obtain ⟨⟨⟨⟨⟨⟨⟨⟨⟨⟨h1, h2⟩, h3⟩, h4⟩, h5⟩, h6⟩, h7⟩, h8⟩, h9⟩, h10⟩, h11⟩ := hn
    constructor <;>
      simp [buildMcpMessagePayload, hc, h1, h2, h3, h4, h5, h6, h7, h8, h9, h10, h11]
  · intro hm
    constructor <;> simp [buildMcpMessagePayload, hm, strFalsy]

/-- Witness for the C7 amended theorem: a message whose only populated
sub-field is unrecognized is tagged unknown and its text names that key. -/
theorem c7_adapter_tagging_witness :
    (buildMcpMessagePayload okMediaEnv 0 protocolOnlyWAMessage).type = "unknown"
    ∧ (buildMcpMessagePayload okMediaEnv 0 protocolOnlyWAMessage).text
        = some ("Received an unhandled message type. Content keys: "
            ++ joinSep ", " (RawMsgContent.keys
              { conversation := none, extendedTextMessage := none, imageMessage := none,
                videoMessage := none, audioMessage := none, documentMessage := none,
                stickerMessage := none, reactionMessage := none, locationMessage := none,
                contactMessage := none, contactsArrayMessage := none,
                otherKeys := ["protocolMessage"] })) :=
  (c7_adapter_tagging okMediaEnv 0 protocolOnlyWAMessage).2.1
    { conversation := none, extendedTextMessage := none, imageMessage := none,
      videoMessage := none, audioMessage := none, documentMessage := none,
      stickerMessage := none, reactionMessage := none, locationMessage := none,
      contactMessage := none, contactsArrayMessage := none,
      otherKeys := ["protocolMessage"] }
    (by decide) (by decide)

/-! ## Claim C8: internal storage reference on the wire -/

/-- C8 evaluation at the failing input: for an image message whose download
succeeds, the payload media object carries the server-side temporary file
path, and the serialized event written onto the open push transport contains
both the `_serverFilePath` key and the path value — the internal storage
reference crosses the transport boundary, although the source comments state
it must not be sent to the client. -/
theorem c8_server_path_exposed :
    ((buildMcpMessagePayload okMediaEnv 1700000000 imageWAMessage).media.map
        (fun m => m.serverFilePath)) = some (some "/tmp/mcp_baileys_media/pic.jpg")
    ∧ strContains (serializeMcpMessagePayload
        (buildMcpMessagePayload okMediaEnv 1700000000 imageWAMessage)) "_serverFilePath" = true
    ∧ strContains (serializeMcpMessagePayload
        (buildMcpMessagePayload okMediaEnv 1700000000 imageWAMessage))
        "/tmp/mcp_baileys_media/pic.jpg" = true
    ∧ (handleNewBaileysMessage okMediaEnv 1 1700000000 "t1" imageWAMessage openT1Registry).2.1
        = true
    ∧ (assocFind? "t1" (handleNewBaileysMessage okMediaEnv 1 1700000000 "t1" imageWAMessage
        openT1Registry).2.2).map (fun x => x.connection.written.any
          (fun w => strContains w "_serverFilePath")) = some true := by
  refine ⟨by decide, by decide, by decide, by decide, by decide⟩

end WaChatMcp
